import Mathlib

/-!
Shallow embedding of `kubeconfig-generator` (`src/main.go`) in Lean 4.

The program is a single-pass CLI tool: it resolves flags into a `Config`,
loads a source kubeconfig, verifies a ServiceAccount, acquires a bearer
token (primary: `kubectl create token`; fallback: the ServiceAccount's
first secret), assembles a fresh kubeconfig with exactly one cluster,
user and context, writes it, and chmods it to `0o600`.

External effects (the kubectl subprocess, the two API reads, the CA-file
read, directory creation, the file write and the chmod) are modelled by a
`World` record that fixes the outcome of each external call, a small
filesystem state `FS`, and an `Event` trace recording which calls were
made and in which order.
-/

/-- Model of `api.Cluster` (the fields `main.go` touches): server URL, inline CA
bytes (`nil`/empty when absent), CA file path (`""` when absent), and the
insecure-skip-TLS-verify flag. -/
structure Cluster where
  server : String
  certificateAuthorityData : List Nat
  certificateAuthority : String
  insecureSkipTLSVerify : Bool
  deriving Repr, DecidableEq

/-- Model of `api.Context`: cluster name, user (AuthInfo) name, namespace. -/
structure KContext where
  cluster : String
  authInfo : String
  nspace : String
  deriving Repr, DecidableEq

/-- Model of `api.AuthInfo` (only the token field is used). -/
structure AuthInfo where
  token : String
  deriving Repr, DecidableEq

/-- Model of `api.Config`: named clusters, users and contexts (association lists
standing for the Go maps) plus the current-context pointer. -/
structure ApiConfig where
  clusters : List (String × Cluster)
  authInfos : List (String × AuthInfo)
  contexts : List (String × KContext)
  currentContext : String
  deriving Repr, DecidableEq

/-- Model of `v1.ServiceAccount` (only the secret references are used): the list
of names of its associated secrets. -/
structure ServiceAccount where
  secrets : List String
  deriving Repr, DecidableEq

/-- Model of `v1.Secret` (only `Data` is used): key/value pairs; values are byte
strings. -/
structure Secret where
  data : List (String × String)
  deriving Repr, DecidableEq

/-- The `Config` record of `main.go`, after flag resolution. -/
structure Config where
  serviceAccountName : String
  nspace : String
  outputPath : String
  contextName : String
  clusterName : String
  apiServer : String
  kubeconfigPath : String
  tokenExpiryHours : Int
  deriving Repr, DecidableEq

/-- One observable external action of a run, in program order. -/
inductive Event where
  /-- the `kubectl create token` subprocess was invoked -/
  | kubectlInvoke
  /-- a `ServiceAccounts(ns).Get` call was issued -/
  | saGet
  /-- a `Secrets(ns).Get` call was issued for the named secret -/
  | secretGet (name : String)
  /-- an `os.ReadFile` call was issued for the CA file path -/
  | caFileRead (path : String)
  /-- a warning line was printed to standard output -/
  | warn (msg : String)
  /-- an `os.MkdirAll` call was issued for the directory -/
  | mkdirAll (dir : String)
  /-- a `clientcmd.WriteToFile` call was issued for the path -/
  | writeFile (path : String)
  /-- an `os.Chmod` call was issued for the path with the given mode -/
  | chmod (path : String) (mode : Nat)
  /-- a file removal was issued (the program never emits this) -/
  | removeFile (path : String)
  deriving Repr, DecidableEq

/-- Outcomes of the external calls a run can make.  Each field fixes what
the outside world answers when the program performs that call; the
program itself decides whether the call happens at all. -/
structure World where
  /-- result of `clientcmd.LoadFromFile` on the source kubeconfig -/
  loadResult : Except String ApiConfig
  /-- result of `clientcmd.BuildConfigFromFlags` -/
  buildResult : Except String Unit
  /-- result of `kubernetes.NewForConfig` -/
  clientResult : Except String Unit
  /-- result of `cmd.Output()` for the `kubectl create token` subprocess:
  `.error` for a non-zero exit, `.ok stdout` otherwise -/
  kubectlResult : Except String String
  /-- result of `ServiceAccounts(ns).Get(saName)` (same answer for the
  verification read and the fallback re-read) -/
  saGetResult : Except String ServiceAccount
  /-- result of `Secrets(ns).Get` by secret name -/
  secretGetResult : String → Except String Secret
  /-- result of `os.ReadFile` by CA file path -/
  readFileResult : String → Except String (List Nat)
  /-- whether `os.MkdirAll` fails -/
  mkdirFails : Bool
  /-- whether `clientcmd.WriteToFile` fails -/
  writeFails : Bool
  /-- whether `os.Chmod` fails -/
  chmodFails : Bool
  /-- permission bits the write leaves on the file before the explicit
  chmod; this absorbs the process's file-creation mask -/
  writeInitialPerm : Nat

/-- Filesystem state: existing directories, and files with their
permission bits. -/
structure FS where
  dirs : List String
  files : List (String × Nat)
  deriving Repr, DecidableEq

/-- Create or overwrite a file entry with the given permission bits. -/
def FS.setFile (fs : FS) (p : String) (perm : Nat) : FS :=
  { fs with files := (p, perm) :: fs.files.filter (fun kv => kv.1 ≠ p) }

/-- Go's `unicode.IsSpace` restricted to the characters Go's
`strings.TrimSpace` meets in ASCII plus the two Latin-1 space
characters. -/
def goIsSpace (c : Char) : Bool :=
  c = ' ' || c = '\t' || c = '\n' || c = '\u000B' || c = '\u000C' || c = '\r' ||
  c = '\u0085' || c = '\u00A0'

/-- Go's `strings.TrimSpace` on a character list: drop leading and
trailing whitespace. -/
def trimSpaceList (l : List Char) : List Char :=
  ((l.dropWhile goIsSpace).reverse.dropWhile goIsSpace).reverse

/-- Go's `strings.TrimSpace` on strings. -/
def trimSpace (s : String) : String :=
  ⟨trimSpaceList s.data⟩

/-- Model of `filepath.Dir` as `main.go` uses it: everything before the
last path separator, `"."` when there is none. -/
def dirname (p : String) : String :=
  if p.data.contains '/' then
    ⟨((p.data.reverse.dropWhile (fun c => c ≠ '/')).drop 1).reverse⟩
  else "."

/-- Function `createTokenWithKubectl`: run the `kubectl create token` subprocess;
on a non-zero exit propagate the error, otherwise return the trimmed
standard output. -/
def createTokenWithKubectl (w : World) : Except String String × List Event :=
  match w.kubectlResult with
  | .error e => (.error e, [.kubectlInvoke])
  | .ok out => (.ok (trimSpace out), [.kubectlInvoke])

/-- Function `getTokenFromSecret`: re-read the ServiceAccount, take its first
listed secret, read it, and return its `token` data field verbatim. -/
def getTokenFromSecret (w : World) (config : Config) :
    Except String String × List Event :=
  match w.saGetResult with
  | .error e => (.error ("failed to get ServiceAccount: " ++ e), [.saGet])
  | .ok sa =>
    match sa.secrets with
    | [] => (.error "service account has no secrets", [.saGet])
    | secretName :: _ =>
      match w.secretGetResult secretName with
      | .error e =>
          (.error ("failed to get secret " ++ secretName ++ ": " ++ e),
           [.saGet, .secretGet secretName])
      | .ok secret =>
        match secret.data.lookup "token" with
        | none =>
            (.error ("token not found in secret " ++ secretName),
             [.saGet, .secretGet secretName])
        | some tokenData =>
            (.ok tokenData, [.saGet, .secretGet secretName])

/-- Function `getServiceAccountToken`: try the kubectl path first; if it errors or
yields an empty token, fall back to the secret read. -/
def getServiceAccountToken (w : World) (config : Config) :
    Except String String × List Event :=
  match createTokenWithKubectl w with
  | (.ok token, ev) =>
      if token ≠ "" then (.ok token, ev)
      else
        let (r, ev2) := getTokenFromSecret w config
        (r, ev ++ ev2)
  | (.error _, ev) =>
      let (r, ev2) := getTokenFromSecret w config
      (r, ev ++ ev2)

/-- The CA-resolution step of `generateKubeconfig` (lines 137-152): inline
CA bytes win; else a readable CA file's contents; else (or on a failed
read) skip-TLS-verify with a warning.  Returns the output CA bytes, the
insecure flag, and the emitted events. -/
def resolveCA (w : World) (currentCluster : Cluster) :
    List Nat × Bool × List Event :=
  if currentCluster.certificateAuthorityData.length > 0 then
    (currentCluster.certificateAuthorityData, false, [])
  else if currentCluster.certificateAuthority ≠ "" then
    match w.readFileResult currentCluster.certificateAuthority with
    | .ok caData =>
        (caData, false, [.caFileRead currentCluster.certificateAuthority])
    | .error e =>
        ([], true,
         [.caFileRead currentCluster.certificateAuthority,
          .warn ("Warning: Failed to read CA certificate: " ++ e),
          .warn "Setting insecure-skip-tls-verify: true"])
  else
    ([], true,
     [.warn "Warning: No CA certificate data found. Setting insecure-skip-tls-verify: true"])

/-- The output `api.Config` assembled by `generateKubeconfig`
(lines 130-167): one cluster, one user keyed by the ServiceAccount name,
one context keyed by the context name, current-context set to it. -/
def assembleConfig (config : Config) (clusterName apiServer : String)
    (caData : List Nat) (insecure : Bool) (token : String) : ApiConfig :=
  { clusters := [(clusterName,
      { server := apiServer
        certificateAuthorityData := caData
        certificateAuthority := ""
        insecureSkipTLSVerify := insecure })]
    authInfos := [(config.serviceAccountName, { token := token })]
    contexts := [(config.contextName,
      { cluster := clusterName
        authInfo := config.serviceAccountName
        nspace := config.nspace })]
    currentContext := config.contextName }

/-- Serialization tail of `generateKubeconfig` (lines 169-187): create
the output directory when missing, write the assembled config, and set
the file permission bits to `0o600`. -/
def writeStep (newConfig : ApiConfig) (outputPath : String) (w : World) (fs : FS)
    (preEvents : List Event) : Except String ApiConfig × List Event × FS :=
  let outputDir := dirname outputPath
  let dirMissing := ! fs.dirs.contains outputDir
  if dirMissing && w.mkdirFails then
    (.error "failed to create output directory: mkdir error",
     preEvents ++ [.mkdirAll outputDir], fs)
  else
    let fs1 := if dirMissing then { fs with dirs := outputDir :: fs.dirs } else fs
    let mkEvents := if dirMissing then [Event.mkdirAll outputDir] else []
    if w.writeFails then
      (.error "failed to write kubeconfig to file: write error",
       preEvents ++ mkEvents ++ [.writeFile outputPath], fs1)
    else
      let fs2 := fs1.setFile outputPath w.writeInitialPerm
      if w.chmodFails then
        (.error "failed to set kubeconfig file permissions: chmod error",
         preEvents ++ mkEvents ++
           [.writeFile outputPath, .chmod outputPath 0o600], fs2)
      else
        (.ok newConfig,
         preEvents ++ mkEvents ++
           [.writeFile outputPath, .chmod outputPath 0o600],
         fs2.setFile outputPath 0o600)

/-- Function `generateKubeconfig` (lines 73-188): load the source kubeconfig,
build the client, resolve the current context and cluster, default the
cluster name and API server from them, verify the ServiceAccount, acquire
the token, assemble the output config, create the output directory if
missing, write the file, and chmod it to `0o600`.  Returns the outcome
(the assembled config on success), the event trace, and the final
filesystem state. -/
def generateKubeconfig (config : Config) (w : World) (fs : FS) :
    Except String ApiConfig × List Event × FS :=
  match w.loadResult with
  | .error e => (.error ("failed to load kubeconfig: " ++ e), [], fs)
  | .ok currentConfig =>
  match w.buildResult with
  | .error e => (.error ("failed to build config from flags: " ++ e), [], fs)
  | .ok _ =>
  match w.clientResult with
  | .error e => (.error ("failed to create clientset: " ++ e), [], fs)
  | .ok _ =>
  match currentConfig.contexts.lookup currentConfig.currentContext with
  | none => (.error "no current context found", [], fs)
  | some currentContext =>
  match currentConfig.clusters.lookup currentContext.cluster with
  | none => (.error "no cluster found for current context", [], fs)
  | some currentCluster =>
  let clusterName :=
    if config.clusterName = "" then currentContext.cluster else config.clusterName
  let apiServer :=
    if config.apiServer = "" then currentCluster.server else config.apiServer
  match w.saGetResult with
  | .error e =>
      (.error ("failed to get ServiceAccount " ++ config.serviceAccountName ++
        " in namespace " ++ config.nspace ++ ": " ++ e), [.saGet], fs)
  | .ok _ =>
  match getServiceAccountToken w config with
  | (.error e, tokenEvents) =>
      (.error ("failed to get token: " ++ e), .saGet :: tokenEvents, fs)
  | (.ok token, tokenEvents) =>
  let (caData, insecure, caEvents) := resolveCA w currentCluster
  let newConfig := assembleConfig config clusterName apiServer caData insecure token
  let preEvents := .saGet :: tokenEvents ++ caEvents
  writeStep newConfig config.outputPath w fs preEvents

/-- The raw flag values of one invocation (`flag.StringVar`/`IntVar`
leave the default when the flag is absent, so absence is the default
value). -/
structure Flags where
  sa : String
  nspace : String
  output : String
  contextFlag : String
  clusterFlag : String
  apiServerFlag : String
  kubeconfig : String
  expiry : Int
  deriving Repr, DecidableEq

/-- Function `defaultKubeconfigPath` (lines 66-71): `<home>/.kube/config` when the
home directory is known, `""` otherwise. -/
def defaultKubeconfigPath (home : String) : String :=
  if home ≠ "" then home ++ "/.kube/config" else ""

/-- The flag defaults registered in `main` (lines 36-43), given the
platform home directory. -/
def defaultFlags (home : String) : Flags :=
  { sa := ""
    nspace := "default"
    output := "sa-kubeconfig"
    contextFlag := ""
    clusterFlag := ""
    apiServerFlag := ""
    kubeconfig := defaultKubeconfigPath home
    expiry := 8760 }

/-- Config resolution in `main` (lines 47-55): reject an empty
ServiceAccount name, then default the context name to
`<sa-name>-context`. -/
def resolveConfig (f : Flags) : Except String Config :=
  if f.sa = "" then .error "Error: ServiceAccount name is required"
  else .ok
    { serviceAccountName := f.sa
      nspace := f.nspace
      outputPath := f.output
      contextName := if f.contextFlag = "" then f.sa ++ "-context" else f.contextFlag
      clusterName := f.clusterFlag
      apiServer := f.apiServerFlag
      kubeconfigPath := f.kubeconfig
      tokenExpiryHours := f.expiry }

/-- The whole run of `main`: resolve the config, then generate the
kubeconfig.  On a config-resolution failure nothing else runs: no events,
no filesystem change. -/
def runMain (f : Flags) (w : World) (fs : FS) :
    Except String ApiConfig × List Event × FS :=
  match resolveConfig f with
  | .error e => (.error e, [], fs)
  | .ok config => generateKubeconfig config w fs

/-- Predicate picking out secret-read events. -/
def isSecretGet (ev : Event) : Bool :=
  match ev with
  | .secretGet _ => true
  | _ => false

/-- Predicate picking out filesystem-mutating events. -/
def isFsWrite (ev : Event) : Bool :=
  match ev with
  | .mkdirAll _ => true
  | .writeFile _ => true
  | .chmod _ _ => true
  | .removeFile _ => true
  | _ => false

/-- Concrete source cluster used by the example runs: inline CA bytes
present. -/
def srcCluster : Cluster :=
  { server := "https://10.0.0.1:6443"
    certificateAuthorityData := [1, 2, 3]
    certificateAuthority := ""
    insecureSkipTLSVerify := false }

/-- Concrete source kubeconfig whose current context points at
`srcCluster`. -/
def srcConfig : ApiConfig :=
  { clusters := [("prod", srcCluster)]
    authInfos := []
    contexts := [("admin", { cluster := "prod", authInfo := "admin", nspace := "default" })]
    currentContext := "admin" }

/-- Concrete resolved configuration for the example runs. -/
def cfgT : Config :=
  { serviceAccountName := "pod-viewer"
    nspace := "sa-namespace"
    outputPath := "./out"
    contextName := "pod-viewer-context"
    clusterName := ""
    apiServer := ""
    kubeconfigPath := "/root/.kube/config"
    tokenExpiryHours := 8760 }

/-- Empty initial filesystem for the example runs. -/
def fs0 : FS := { dirs := [], files := [] }

/-- Concrete world where every external call succeeds: kubectl prints a
token followed by a newline, the ServiceAccount exists with one secret
holding a `token` field. -/
def wOK : World :=
  { loadResult := .ok srcConfig
    buildResult := .ok ()
    clientResult := .ok ()
    kubectlResult := .ok "tok-abc\n"
    saGetResult := .ok { secrets := ["s1"] }
    secretGetResult := fun n =>
      if n = "s1" then .ok { data := [("token", "abc123")] } else .error "not found"
    readFileResult := fun _ => .error "no such file"
    mkdirFails := false
    writeFails := false
    chmodFails := false
    writeInitialPerm := 0o644 }

/-- Variant of `wOK` where the kubectl subprocess exits non-zero. -/
def wKubectlFail : World := { wOK with kubectlResult := .error "exit status 1" }

/-- Variant of `wOK` where kubectl fails and the ServiceAccount lists no
secrets. -/
def wNoSecrets : World :=
  { wOK with kubectlResult := .error "exit status 1", saGetResult := .ok { secrets := [] } }

/-- Variant of `wOK` where the kubectl subprocess prints only
whitespace. -/
def wSpaceOut : World := { wOK with kubectlResult := .ok " \n " }

/-- Variant of `wOK` where the final chmod fails. -/
def wChmodFail : World := { wOK with chmodFails := true }

/-- Value of the output credential set for the successful example run of
`generateKubeconfig cfgT wOK fs0`. -/
def outOK : ApiConfig :=
  { clusters := [("prod",
      { server := "https://10.0.0.1:6443"
        certificateAuthorityData := [1, 2, 3]
        certificateAuthority := ""
        insecureSkipTLSVerify := false })]
    authInfos := [("pod-viewer", { token := "tok-abc" })]
    contexts := [("pod-viewer-context",
      { cluster := "prod", authInfo := "pod-viewer", nspace := "sa-namespace" })]
    currentContext := "pod-viewer-context" }

/-- Event trace of the successful example run. -/
def trOK : List Event :=
  [Event.saGet, Event.kubectlInvoke, Event.mkdirAll ".",
   Event.writeFile "./out", Event.chmod "./out" 0o600]

/-- Final filesystem state of the successful example run. -/
def fsOK : FS := { dirs := ["."], files := [("./out", 0o600)] }

theorem head?_dropWhile_not {p : Char → Bool} :
    ∀ (l : List Char) (a : Char), (l.dropWhile p).head? = some a → p a = false := by
  intro l
  induction l with
  | nil => intro a h; simp [List.dropWhile] at h
  | cons x xs ih =>
    intro a h
    by_cases hx : p x
    · rw [List.dropWhile_cons_of_pos hx] at h
      exact ih a h
    · rw [List.dropWhile_cons_of_neg hx] at h
      simp at h
      subst h
      simpa using hx

theorem trimSpaceList_getLast?_not_space (l : List Char) (a : Char)
    (h : (trimSpaceList l).getLast? = some a) : goIsSpace a = false := by
  unfold trimSpaceList at h
  rw [List.getLast?_reverse] at h
  exact head?_dropWhile_not _ a h

theorem trimSpaceList_of_all_space (l : List Char) (h : l.all goIsSpace) :
    trimSpaceList l = [] := by
  unfold trimSpaceList
  have h1 : l.dropWhile goIsSpace = [] := by
    rw [List.dropWhile_eq_nil_iff]
    intro x hx
    exact List.all_eq_true.mp h x hx
  rw [h1]
  simp

theorem secretGet_beq_saGet (s : String) :
    (Event.secretGet s == Event.saGet) = false := rfl

theorem getTokenFromSecret_trace (w : World) (c : Config) :
    (getTokenFromSecret w c).2.count Event.saGet = 1 ∧
    (getTokenFromSecret w c).2.countP isSecretGet ≤ 1 := by
  unfold getTokenFromSecret
  rcases h : w.saGetResult with e | sa
  · simp [h, List.count, isSecretGet]
  · rcases hs : sa.secrets with _ | ⟨s0, rest⟩
    · simp [h, hs, List.count, isSecretGet]
    · rcases hg : w.secretGetResult s0 with e | sec
      · simp [h, hs, hg, List.count, isSecretGet, List.countP, List.countP.go, secretGet_beq_saGet]
      · rcases hl : sec.data.lookup "token" with _ | t
        · simp [h, hs, hg, hl, List.count, isSecretGet, List.countP, List.countP.go, secretGet_beq_saGet]
        · simp [h, hs, hg, hl, List.count, isSecretGet, List.countP, List.countP.go, secretGet_beq_saGet]

/-- C1: whenever the primary token mechanism fails — the kubectl
subprocess exits non-zero, or its trimmed output is empty — the
secret-based fallback runs exactly once before the run is allowed to
fail: the overall result is precisely the fallback's result, the trace is
the single kubectl invocation followed by the fallback's events, the
ServiceAccount re-read happens exactly once and at most one secret read
occurs (the model is sequential, so no parallel attempt exists). -/
theorem token_primary_failure_single_fallback (w : World) (c : Config)
    (hfail : (∃ e, w.kubectlResult = .error e) ∨
             (∃ out, w.kubectlResult = .ok out ∧ trimSpace out = "")) :
    (getServiceAccountToken w c).1 = (getTokenFromSecret w c).1 ∧
    (getServiceAccountToken w c).2 =
      Event.kubectlInvoke :: (getTokenFromSecret w c).2 ∧
    (getServiceAccountToken w c).2.count Event.saGet = 1 ∧
    (getServiceAccountToken w c).2.countP isSecretGet ≤ 1 := by
  have htr := getTokenFromSecret_trace w c
  rcases hg : getTokenFromSecret w c with ⟨r2, ev2⟩
  rw [hg] at htr
  obtain ⟨e, he⟩ | ⟨out, hok, hemp⟩ := hfail
  · simp only [getServiceAccountToken, createTokenWithKubectl, he, hg]
    simp [List.count_cons, List.countP_cons, isSecretGet]
    exact ⟨htr.1, htr.2⟩
  · simp only [getServiceAccountToken, createTokenWithKubectl, hok, hg, hemp]
    simp [List.count_cons, List.countP_cons, isSecretGet]
    exact ⟨htr.1, htr.2⟩

/-- Witness for C1: the kubectl subprocess exits non-zero in
`wKubectlFail`, and the fallback then runs exactly once. -/
theorem token_primary_failure_single_fallback_witness :
    (getServiceAccountToken wKubectlFail cfgT).1 = (getTokenFromSecret wKubectlFail cfgT).1 ∧
    (getServiceAccountToken wKubectlFail cfgT).2 =
      Event.kubectlInvoke :: (getTokenFromSecret wKubectlFail cfgT).2 ∧
    (getServiceAccountToken wKubectlFail cfgT).2.count Event.saGet = 1 ∧
    (getServiceAccountToken wKubectlFail cfgT).2.countP isSecretGet ≤ 1 :=
  token_primary_failure_single_fallback wKubectlFail cfgT (Or.inl ⟨"exit status 1", rfl⟩)

/-- C2: whenever the primary token mechanism succeeds — the kubectl
subprocess exits zero and its trimmed output is non-empty — the fallback
is never invoked: token acquisition performs exactly the kubectl
invocation, with no ServiceAccount re-read and no secret read. -/
theorem token_primary_success_no_fallback (w : World) (c : Config) (out : String)
    (hok : w.kubectlResult = .ok out) (hne : trimSpace out ≠ "") :
    getServiceAccountToken w c = (.ok (trimSpace out), [Event.kubectlInvoke]) ∧
    Event.saGet ∉ (getServiceAccountToken w c).2 ∧
    ∀ n, Event.secretGet n ∉ (getServiceAccountToken w c).2 := by
  have h1 : getServiceAccountToken w c = (.ok (trimSpace out), [Event.kubectlInvoke]) := by
    simp only [getServiceAccountToken, createTokenWithKubectl, hok]
    simp [hne]
  refine ⟨h1, ?_, ?_⟩
  · simp [h1]
  · intro n
    simp [h1]

/-- Witness for C2: in `wOK` kubectl prints a non-empty token, and no
fallback event occurs. -/
theorem token_primary_success_no_fallback_witness :
    getServiceAccountToken wOK cfgT = (.ok (trimSpace "tok-abc\n"), [Event.kubectlInvoke]) ∧
    Event.saGet ∉ (getServiceAccountToken wOK cfgT).2 ∧
    Event.secretGet "s1" ∉ (getServiceAccountToken wOK cfgT).2 := by
  have h := token_primary_success_no_fallback wOK cfgT "tok-abc\n" rfl (by decide)
  exact ⟨h.1, h.2.1, h.2.2 "s1"⟩

/-- C6: in the fallback path with an existing ServiceAccount whose secret
list is non-empty, exactly the first listed secret is read (the trace is
one ServiceAccount read followed by one read of that secret); an
unreadable secret yields the secret-read error, a secret without a
`token` data field yields the token-missing error, and otherwise the
returned token is the `token` field value byte-for-byte. -/
theorem fallback_reads_first_secret_exactly (w : World) (c : Config)
    (sa : ServiceAccount) (s0 : String) (rest : List String)
    (hsa : w.saGetResult = .ok sa) (hs : sa.secrets = s0 :: rest) :
    (getTokenFromSecret w c).2 = [Event.saGet, Event.secretGet s0] ∧
    (∀ e, w.secretGetResult s0 = .error e →
       (getTokenFromSecret w c).1 = .error ("failed to get secret " ++ s0 ++ ": " ++ e)) ∧
    (∀ secret, w.secretGetResult s0 = .ok secret →
       (secret.data.lookup "token" = none →
          (getTokenFromSecret w c).1 = .error ("token not found in secret " ++ s0)) ∧
       (∀ t, secret.data.lookup "token" = some t →
          (getTokenFromSecret w c).1 = .ok t)) := by
  refine ⟨?_, ?_, ?_⟩
  · unfold getTokenFromSecret
    rcases hg : w.secretGetResult s0 with e | sec
    · simp [hsa, hs, hg]
    · rcases hl : sec.data.lookup "token" with _ | t <;> simp [hsa, hs, hg, hl]
  · intro e he
    unfold getTokenFromSecret
    simp [hsa, hs, he]
  · intro secret hsec
    constructor
    · intro hnone
      unfold getTokenFromSecret
      simp [hsa, hs, hsec, hnone]
    · intro t ht
      unfold getTokenFromSecret
      simp [hsa, hs, hsec, ht]

/-- Witness for C6: in `wOK` the ServiceAccount lists secret `s1` whose
`token` field is `abc123`, and the fallback reads exactly that secret and
returns exactly that value. -/
theorem fallback_reads_first_secret_exactly_witness :
    (getTokenFromSecret wOK cfgT).2 = [Event.saGet, Event.secretGet "s1"] ∧
    (getTokenFromSecret wOK cfgT).1 = .ok "abc123" := by
  have h := fallback_reads_first_secret_exactly wOK cfgT { secrets := ["s1"] } "s1" [] rfl rfl
  exact ⟨h.1, (h.2.2 { data := [("token", "abc123")] } rfl).2 "abc123" (by decide)⟩

/-- C10: a token obtained via the primary path is the kubectl standard
output with leading and trailing whitespace removed — in particular its
last character is never a newline — and whitespace-only output trims to
the empty token, which triggers the fallback; a token obtained via the
secret fallback is the secret's `token` field byte-for-byte, with no
trimming. -/
theorem primary_trimmed_fallback_verbatim (w : World) (c : Config) :
    (∀ out, w.kubectlResult = .ok out →
       (createTokenWithKubectl w).1 = .ok (trimSpace out) ∧
       (trimSpace out).data.getLast? ≠ some '\n' ∧
       (out.data.all goIsSpace = true →
          (getServiceAccountToken w c).1 = (getTokenFromSecret w c).1)) ∧
    (∀ sa s0 rest secret t, w.saGetResult = .ok sa → sa.secrets = s0 :: rest →
       w.secretGetResult s0 = .ok secret → secret.data.lookup "token" = some t →
       (getTokenFromSecret w c).1 = .ok t) := by
  constructor
  · intro out hok
    refine ⟨?_, ?_, ?_⟩
    · simp [createTokenWithKubectl, hok]
    · intro h
      have h2 : goIsSpace '\n' = false := trimSpaceList_getLast?_not_space out.data '\n' h
      simp [goIsSpace] at h2
    · intro hall
      have hnil : trimSpaceList out.data = [] := trimSpaceList_of_all_space out.data hall
      have hempty : trimSpace out = "" := by
        unfold trimSpace
        rw [hnil]
      rcases hg : getTokenFromSecret w c with ⟨r2, ev2⟩
      simp only [getServiceAccountToken, createTokenWithKubectl, hok, hempty, hg]
      simp
  · intro sa s0 rest secret t hsa hs hg hl
    unfold getTokenFromSecret
    simp [hsa, hs, hg, hl]

/-- Witness for C10: at `wOK` the kubectl output ends in a newline and
trims cleanly; at `wSpaceOut` the output is whitespace-only and the
fallback result is returned; the fallback token is the secret field
verbatim. -/
theorem primary_trimmed_fallback_verbatim_witness :
    ((createTokenWithKubectl wOK).1 = .ok (trimSpace "tok-abc\n") ∧
     (trimSpace "tok-abc\n").data.getLast? ≠ some '\n') ∧
    (getServiceAccountToken wSpaceOut cfgT).1 = (getTokenFromSecret wSpaceOut cfgT).1 ∧
    (getTokenFromSecret wOK cfgT).1 = .ok "abc123" := by
  have h1 := primary_trimmed_fallback_verbatim wOK cfgT
  have h2 := primary_trimmed_fallback_verbatim wSpaceOut cfgT
  refine ⟨⟨(h1.1 "tok-abc\n" rfl).1, (h1.1 "tok-abc\n" rfl).2.1⟩,
    (h2.1 " \n " rfl).2.2 (by decide),
    h1.2 { secrets := ["s1"] } "s1" [] { data := [("token", "abc123")] } "abc123"
      rfl rfl rfl (by decide)⟩

/-- C4: when the run reaches token acquisition, the ServiceAccount lists
zero secrets and the primary mechanism fails, the run fails with the
no-associated-secret condition and the filesystem is untouched: the
result is the wrapped `service account has no secrets` error, the final
filesystem state equals the initial one, and the trace contains no
directory creation, file write, chmod or removal. -/
theorem no_secrets_primary_failure_fails_untouched (c : Config) (w : World) (fs : FS)
    (cc : ApiConfig) (ctx : KContext) (cl : Cluster) (sa : ServiceAccount)
    (hload : w.loadResult = .ok cc) (hbuild : w.buildResult = .ok ())
    (hclient : w.clientResult = .ok ())
    (hctx : cc.contexts.lookup cc.currentContext = some ctx)
    (hcl : cc.clusters.lookup ctx.cluster = some cl)
    (hsa : w.saGetResult = .ok sa) (hs : sa.secrets = [])
    (hfail : (∃ e, w.kubectlResult = .error e) ∨
             (∃ out, w.kubectlResult = .ok out ∧ trimSpace out = "")) :
    generateKubeconfig c w fs =
      (.error "failed to get token: service account has no secrets",
       [Event.saGet, Event.kubectlInvoke, Event.saGet], fs) ∧
    (generateKubeconfig c w fs).2.1.countP isFsWrite = 0 := by
  have hfb : getTokenFromSecret w c = (.error "service account has no secrets", [Event.saGet]) := by
    unfold getTokenFromSecret
    simp [hsa, hs]
  have htok : getServiceAccountToken w c =
      (.error "service account has no secrets", [Event.kubectlInvoke, Event.saGet]) := by
    obtain ⟨e, he⟩ | ⟨out, hok, hemp⟩ := hfail
    · simp [getServiceAccountToken, createTokenWithKubectl, he, hfb]
    · simp [getServiceAccountToken, createTokenWithKubectl, hok, hemp, hfb]
  have h1 : generateKubeconfig c w fs =
      (.error "failed to get token: service account has no secrets",
       [Event.saGet, Event.kubectlInvoke, Event.saGet], fs) := by
    simp only [generateKubeconfig, hload, hbuild, hclient, hctx, hcl, hsa, htok]
    rfl
  rw [h1]
  exact ⟨rfl, rfl⟩

/-- Witness for C4: in `wNoSecrets` kubectl fails and the ServiceAccount
has no secrets; the run fails and the filesystem stays empty. -/
theorem no_secrets_primary_failure_fails_untouched_witness :
    generateKubeconfig cfgT wNoSecrets fs0 =
      (.error "failed to get token: service account has no secrets",
       [Event.saGet, Event.kubectlInvoke, Event.saGet], fs0) ∧
    (generateKubeconfig cfgT wNoSecrets fs0).2.1.countP isFsWrite = 0 :=
  no_secrets_primary_failure_fails_untouched cfgT wNoSecrets fs0 srcConfig
    { cluster := "prod", authInfo := "admin", nspace := "default" } srcCluster
    { secrets := [] } rfl rfl rfl rfl rfl rfl rfl (Or.inl ⟨"exit status 1", rfl⟩)

theorem FS.lookup_setFile (fs : FS) (p : String) (perm : Nat) :
    (fs.setFile p perm).files.lookup p = some perm := by
  simp [FS.setFile, List.lookup]

theorem writeStep_ok_inv (nc : ApiConfig) (p : String) (w : World) (fs : FS)
    (pre : List Event) (out : ApiConfig) (tr : List Event) (fs' : FS)
    (h : writeStep nc p w fs pre = (.ok out, tr, fs')) :
    out = nc ∧ w.writeFails = false ∧ w.chmodFails = false ∧
    (∃ mk, tr = pre ++ mk ++ [.writeFile p, .chmod p 0o600] ∧
       (mk = [] ∨ mk = [Event.mkdirAll (dirname p)])) ∧
    fs'.files.lookup p = some 0o600 := by
  unfold writeStep at h
  by_cases hd : dirname p ∈ fs.dirs <;>
    by_cases hm : w.mkdirFails <;>
      by_cases hw : w.writeFails <;>
        by_cases hc : w.chmodFails <;>
          simp [hd, hm, hw, hc] at h
  all_goals obtain ⟨hout, htr, hfs⟩ := h
  all_goals refine ⟨hout.symm, by simpa using hw, by simpa using hc, ?_,
    by rw [← hfs]; exact FS.lookup_setFile _ p 0o600⟩
  · exact ⟨[], by rw [← htr]; simp, Or.inl rfl⟩
  · exact ⟨[], by rw [← htr]; simp, Or.inl rfl⟩
  · exact ⟨[Event.mkdirAll (dirname p)], by rw [← htr]; simp, Or.inr rfl⟩

theorem getTokenFromSecret_no_removeFile (w : World) (c : Config) (p : String) :
    Event.removeFile p ∉ (getTokenFromSecret w c).2 := by
  unfold getTokenFromSecret
  rcases h : w.saGetResult with e | sa
  · simp [h]
  · rcases hs : sa.secrets with _ | ⟨s0, rest⟩
    · simp [h, hs]
    · rcases hg : w.secretGetResult s0 with e | sec
      · simp [h, hs, hg]
      · rcases hl : sec.data.lookup "token" with _ | t <;> simp [h, hs, hg, hl]

theorem getServiceAccountToken_no_removeFile (w : World) (c : Config) (p : String) :
    Event.removeFile p ∉ (getServiceAccountToken w c).2 := by
  have hf := getTokenFromSecret_no_removeFile w c p
  rcases hg : getTokenFromSecret w c with ⟨r2, ev2⟩
  rw [hg] at hf
  unfold getServiceAccountToken createTokenWithKubectl
  rcases hk : w.kubectlResult with e | out
  · simp [hg, hf]
  · by_cases hne : trimSpace out = ""
    · simp [hne, hg, hf]
    · simp [hne]

theorem resolveCA_no_removeFile (w : World) (cl : Cluster) (p : String) :
    Event.removeFile p ∉ (resolveCA w cl).2.2 := by
  unfold resolveCA
  by_cases h1 : cl.certificateAuthorityData.length > 0
  · simp [h1]
  · by_cases h2 : cl.certificateAuthority = ""
    · simp [h1, h2]
    · rcases hr : w.readFileResult cl.certificateAuthority with e | b <;>
        simp [h1, h2, hr]

theorem generateKubeconfig_ok_inv (c : Config) (w : World) (fs : FS) (out : ApiConfig)
    (tr : List Event) (fs' : FS)
    (h : generateKubeconfig c w fs = (.ok out, tr, fs')) :
    ∃ cc ctx cl token tokEv,
      w.loadResult = .ok cc ∧
      cc.contexts.lookup cc.currentContext = some ctx ∧
      cc.clusters.lookup ctx.cluster = some cl ∧
      getServiceAccountToken w c = (.ok token, tokEv) ∧
      w.writeFails = false ∧ w.chmodFails = false ∧
      out = assembleConfig c (if c.clusterName = "" then ctx.cluster else c.clusterName)
              (if c.apiServer = "" then cl.server else c.apiServer)
              (resolveCA w cl).1 (resolveCA w cl).2.1 token ∧
      Event.chmod c.outputPath 0o600 ∈ tr ∧
      Event.writeFile c.outputPath ∈ tr ∧
      (∀ p, Event.removeFile p ∉ tr) ∧
      (∀ ev ∈ (resolveCA w cl).2.2, ev ∈ tr) ∧
      fs'.files.lookup c.outputPath = some 0o600 := by
  rcases hload : w.loadResult with e | cc
  · simp only [generateKubeconfig, hload] at h
    simp at h
  rcases hbuild : w.buildResult with e | u
  · simp only [generateKubeconfig, hload, hbuild] at h
    simp at h
  rcases hclient : w.clientResult with e | u2
  · simp only [generateKubeconfig, hload, hbuild, hclient] at h
    simp at h
  rcases hctx : cc.contexts.lookup cc.currentContext with _ | ctx
  · simp only [generateKubeconfig, hload, hbuild, hclient, hctx] at h
    simp at h
  rcases hcl : cc.clusters.lookup ctx.cluster with _ | cl
  · simp only [generateKubeconfig, hload, hbuild, hclient, hctx, hcl] at h
    simp at h
  rcases hsa : w.saGetResult with e | sa
  · simp only [generateKubeconfig, hload, hbuild, hclient, hctx, hcl, hsa] at h
    simp at h
  rcases htok : getServiceAccountToken w c with ⟨r, tokEv⟩
  rcases r with e | token
  · simp only [generateKubeconfig, hload, hbuild, hclient, hctx, hcl, hsa, htok] at h
    simp at h
  simp only [generateKubeconfig, hload, hbuild, hclient, hctx, hcl, hsa, htok] at h
  obtain ⟨hout, hwf, hcf, ⟨mk, htr, hmk⟩, hlookup⟩ :=
    writeStep_ok_inv _ _ _ _ _ _ _ _ h
  refine ⟨cc, ctx, cl, token, tokEv, rfl, hctx, hcl, rfl, hwf, hcf, hout, ?_, ?_, ?_, ?_, hlookup⟩
  · rw [htr]
    simp
  · rw [htr]
    simp
  · intro p
    rw [htr]
    have hno1 : Event.removeFile p ∉ tokEv := by
      have hx := getServiceAccountToken_no_removeFile w c p
      rw [htok] at hx
      exact hx
    have hno2 : Event.removeFile p ∉ (resolveCA w cl).2.2 := resolveCA_no_removeFile w cl p
    rcases hmk with rfl | rfl <;> simp [List.mem_append, hno1, hno2]
  · intro ev hev
    rw [htr]
    simp [List.mem_append, hev]

/-- C3: every successful run's output credential set contains exactly one
cluster entry keyed by the resolved cluster name (the -cluster flag, or
the source current context's cluster when the flag is empty), exactly one
user entry keyed by the ServiceAccount name, exactly one context entry
keyed by the resolved context name, and a current-context field equal to
the resolved context name. -/
theorem success_run_output_shape (c : Config) (w : World) (fs : FS) (out : ApiConfig)
    (tr : List Event) (fs' : FS)
    (h : generateKubeconfig c w fs = (.ok out, tr, fs')) :
    (∃ cc ctx, w.loadResult = .ok cc ∧
       cc.contexts.lookup cc.currentContext = some ctx ∧
       out.clusters.map Prod.fst = [if c.clusterName = "" then ctx.cluster else c.clusterName]) ∧
    out.clusters.length = 1 ∧
    (∃ token, out.authInfos = [(c.serviceAccountName, { token := token })]) ∧
    out.contexts.map Prod.fst = [c.contextName] ∧
    out.contexts.length = 1 ∧
    out.currentContext = c.contextName := by
  obtain ⟨cc, ctx, cl, token, tokEv, hload, hctx, hcl, htok, hwf, hcf, hout, -, -, -, -, -⟩ :=
    generateKubeconfig_ok_inv c w fs out tr fs' h
  subst hout
  exact ⟨⟨cc, ctx, hload, hctx, by simp [assembleConfig]⟩, by simp [assembleConfig],
    ⟨token, by simp [assembleConfig]⟩, by simp [assembleConfig], by simp [assembleConfig],
    by simp [assembleConfig]⟩

/-- Witness for C3: the concrete successful run `generateKubeconfig cfgT
wOK fs0` produces `outOK` with one cluster, one user, one context, and
matching current-context. -/
theorem success_run_output_shape_witness :
    (∃ cc ctx, wOK.loadResult = .ok cc ∧
       cc.contexts.lookup cc.currentContext = some ctx ∧
       outOK.clusters.map Prod.fst =
         [if cfgT.clusterName = "" then ctx.cluster else cfgT.clusterName]) ∧
    outOK.clusters.length = 1 ∧
    (∃ token, outOK.authInfos = [(cfgT.serviceAccountName, { token := token })]) ∧
    outOK.contexts.map Prod.fst = [cfgT.contextName] ∧
    outOK.contexts.length = 1 ∧
    outOK.currentContext = cfgT.contextName :=
  success_run_output_shape cfgT wOK fs0 outOK trOK fsOK (by rfl)

/-- C9: the output cluster's CA bytes and skip-TLS flag are computed by
`resolveCA` from the source kubeconfig's current-context cluster alone;
a second successful run differing only in the -cluster and -api-server
flags yields a cluster entry with identical CA data and skip-TLS flag,
while its key and server URL follow those flags. -/
theorem ca_decision_flag_independent (c : Config) (w : World) (fs : FS)
    (out : ApiConfig) (tr : List Event) (fs' : FS) (cn as : String)
    (out2 : ApiConfig) (tr2 : List Event) (fs2' : FS)
    (h : generateKubeconfig c w fs = (.ok out, tr, fs'))
    (h2 : generateKubeconfig { c with clusterName := cn, apiServer := as } w fs =
      (.ok out2, tr2, fs2')) :
    ∃ cc ctx cl,
      w.loadResult = .ok cc ∧
      cc.contexts.lookup cc.currentContext = some ctx ∧
      cc.clusters.lookup ctx.cluster = some cl ∧
      out.clusters.map (fun kv => (kv.2.certificateAuthorityData, kv.2.insecureSkipTLSVerify)) =
        [((resolveCA w cl).1, (resolveCA w cl).2.1)] ∧
      out2.clusters.map (fun kv => (kv.2.certificateAuthorityData, kv.2.insecureSkipTLSVerify)) =
        [((resolveCA w cl).1, (resolveCA w cl).2.1)] ∧
      out2.clusters.map Prod.fst = [if cn = "" then ctx.cluster else cn] ∧
      out2.clusters.map (fun kv => kv.2.server) = [if as = "" then cl.server else as] := by
  obtain ⟨cc, ctx, cl, token, tokEv, hload, hctx, hcl, htok, hwf, hcf, hout, -, -, -, -, -⟩ :=
    generateKubeconfig_ok_inv c w fs out tr fs' h
  obtain ⟨cc2, ctx2, cl2, token2, tokEv2, hload2, hctx2, hcl2, htok2, hwf2, hcf2, hout2,
    -, -, -, -, -⟩ :=
    generateKubeconfig_ok_inv { c with clusterName := cn, apiServer := as } w fs out2 tr2 fs2' h2
  rw [hload] at hload2
  injection hload2 with hcceq
  subst hcceq
  rw [hctx] at hctx2
  injection hctx2 with hctxeq
  subst hctxeq
  rw [hcl] at hcl2
  injection hcl2 with hcleq
  subst hcleq
  subst hout hout2
  exact ⟨cc, ctx, cl, hload, hctx, hcl, by simp [assembleConfig],
    by simp [assembleConfig], by simp [assembleConfig], by simp [assembleConfig]⟩

/-- Witness for C9: the example run with empty flags and the run with
`-cluster my-cluster -api-server https://example:6443` share the same CA
bytes and skip-TLS flag, while key and server follow the flags. -/
theorem ca_decision_flag_independent_witness :
    ∃ cc ctx cl,
      wOK.loadResult = .ok cc ∧
      cc.contexts.lookup cc.currentContext = some ctx ∧
      cc.clusters.lookup ctx.cluster = some cl ∧
      outOK.clusters.map (fun kv => (kv.2.certificateAuthorityData, kv.2.insecureSkipTLSVerify)) =
        [((resolveCA wOK cl).1, (resolveCA wOK cl).2.1)] ∧
      (assembleConfig { cfgT with clusterName := "my-cluster", apiServer := "https://example:6443" }
          "my-cluster" "https://example:6443" [1, 2, 3] false "tok-abc").clusters.map
        (fun kv => (kv.2.certificateAuthorityData, kv.2.insecureSkipTLSVerify)) =
        [((resolveCA wOK cl).1, (resolveCA wOK cl).2.1)] ∧
      (assembleConfig { cfgT with clusterName := "my-cluster", apiServer := "https://example:6443" }
          "my-cluster" "https://example:6443" [1, 2, 3] false "tok-abc").clusters.map Prod.fst =
        [if "my-cluster" = "" then ctx.cluster else "my-cluster"] ∧
      (assembleConfig { cfgT with clusterName := "my-cluster", apiServer := "https://example:6443" }
          "my-cluster" "https://example:6443" [1, 2, 3] false "tok-abc").clusters.map
        (fun kv => kv.2.server) =
        [if "https://example:6443" = "" then cl.server else "https://example:6443"] :=
  ca_decision_flag_independent cfgT wOK fs0 outOK trOK fsOK "my-cluster" "https://example:6443"
    (assembleConfig { cfgT with clusterName := "my-cluster", apiServer := "https://example:6443" }
      "my-cluster" "https://example:6443" [1, 2, 3] false "tok-abc")
    [Event.saGet, Event.kubectlInvoke, Event.mkdirAll ".",
     Event.writeFile "./out", Event.chmod "./out" 0o600]
    fsOK (by rfl) (by rfl)

/-- C5: for every successful run the output cluster entry's CA material
follows the priority order of `generateKubeconfig`: non-empty inline CA
bytes from the source current-context cluster are copied verbatim;
otherwise a named, readable CA file's contents become the CA bytes;
otherwise — no CA material, or a failed file read — the output cluster
has skip-TLS-verification enabled and a warning line is in the trace, so
the insecure fallback is never silent. -/
theorem ca_resolution_priority (c : Config) (w : World) (fs : FS) (out : ApiConfig)
    (tr : List Event) (fs' : FS) (cc : ApiConfig) (ctx : KContext) (cl : Cluster)
    (h : generateKubeconfig c w fs = (.ok out, tr, fs'))
    (hload : w.loadResult = .ok cc)
    (hctx : cc.contexts.lookup cc.currentContext = some ctx)
    (hcl : cc.clusters.lookup ctx.cluster = some cl) :
    ∃ key ocl, out.clusters = [(key, ocl)] ∧
      (cl.certificateAuthorityData ≠ [] →
         ocl.certificateAuthorityData = cl.certificateAuthorityData ∧
         ocl.insecureSkipTLSVerify = false) ∧
      (cl.certificateAuthorityData = [] → cl.certificateAuthority ≠ "" →
         (∀ bytes, w.readFileResult cl.certificateAuthority = .ok bytes →
            ocl.certificateAuthorityData = bytes ∧ ocl.insecureSkipTLSVerify = false) ∧
         (∀ e, w.readFileResult cl.certificateAuthority = .error e →
            ocl.insecureSkipTLSVerify = true ∧ ∃ m, Event.warn m ∈ tr)) ∧
      (cl.certificateAuthorityData = [] → cl.certificateAuthority = "" →
         ocl.insecureSkipTLSVerify = true ∧ ∃ m, Event.warn m ∈ tr) := by
  obtain ⟨cc', ctx', cl', token, tokEv, hload', hctx', hcl', htok, hwf, hcf, hout,
    -, -, -, hca, -⟩ :=
    generateKubeconfig_ok_inv c w fs out tr fs' h
  rw [hload] at hload'
  injection hload' with e1
  subst e1
  rw [hctx] at hctx'
  injection hctx' with e2
  subst e2
  rw [hcl] at hcl'
  injection hcl' with e3
  subst e3
  subst hout
  refine ⟨(if c.clusterName = "" then ctx.cluster else c.clusterName),
    { server := (if c.apiServer = "" then cl.server else c.apiServer)
      certificateAuthorityData := (resolveCA w cl).1
      certificateAuthority := ""
      insecureSkipTLSVerify := (resolveCA w cl).2.1 },
    by simp [assembleConfig], ?_, ?_, ?_⟩
  · intro hne
    have hres : resolveCA w cl = (cl.certificateAuthorityData, false, []) := by
      unfold resolveCA
      simp [List.length_pos, hne]
    simp [assembleConfig, hres]
  · intro hemp hfile
    constructor
    · intro bytes hb
      have hres : resolveCA w cl = (bytes, false, [Event.caFileRead cl.certificateAuthority]) := by
        unfold resolveCA
        simp [hemp, hfile, hb]
      simp [assembleConfig, hres]
    · intro e he
      have hres : resolveCA w cl =
          ([], true, [Event.caFileRead cl.certificateAuthority,
            Event.warn ("Warning: Failed to read CA certificate: " ++ e),
            Event.warn "Setting insecure-skip-tls-verify: true"]) := by
        unfold resolveCA
        simp [hemp, hfile, he]
      refine ⟨by simp [assembleConfig, hres], "Warning: Failed to read CA certificate: " ++ e, ?_⟩
      exact hca _ (by rw [hres]; simp)
  · intro hemp hnof
    have hres : resolveCA w cl =
        ([], true,
         [Event.warn "Warning: No CA certificate data found. Setting insecure-skip-tls-verify: true"]) := by
      unfold resolveCA
      simp [hemp, hnof]
    refine ⟨by simp [assembleConfig, hres],
      "Warning: No CA certificate data found. Setting insecure-skip-tls-verify: true", ?_⟩
    exact hca _ (by rw [hres]; simp)

/-- Witness for C5: the example source cluster carries inline CA bytes,
which are copied verbatim into the output entry of the concrete run. -/
theorem ca_resolution_priority_witness :
    ∃ key ocl, outOK.clusters = [(key, ocl)] ∧
      (srcCluster.certificateAuthorityData ≠ [] →
         ocl.certificateAuthorityData = srcCluster.certificateAuthorityData ∧
         ocl.insecureSkipTLSVerify = false) ∧
      (srcCluster.certificateAuthorityData = [] → srcCluster.certificateAuthority ≠ "" →
         (∀ bytes, wOK.readFileResult srcCluster.certificateAuthority = .ok bytes →
            ocl.certificateAuthorityData = bytes ∧ ocl.insecureSkipTLSVerify = false) ∧
         (∀ e, wOK.readFileResult srcCluster.certificateAuthority = .error e →
            ocl.insecureSkipTLSVerify = true ∧ ∃ m, Event.warn m ∈ trOK)) ∧
      (srcCluster.certificateAuthorityData = [] → srcCluster.certificateAuthority = "" →
         ocl.insecureSkipTLSVerify = true ∧ ∃ m, Event.warn m ∈ trOK) :=
  ca_resolution_priority cfgT wOK fs0 outOK trOK fsOK srcConfig
    { cluster := "prod", authInfo := "admin", nspace := "default" } srcCluster
    (by rfl) rfl rfl rfl

theorem writeStep_chmod_fail (nc : ApiConfig) (p : String) (w : World) (fs : FS)
    (pre : List Event) (hm : w.mkdirFails = false) (hw : w.writeFails = false)
    (hc : w.chmodFails = true) :
    writeStep nc p w fs pre =
      (.error "failed to set kubeconfig file permissions: chmod error",
       pre ++ (if fs.dirs.contains (dirname p) then [] else [Event.mkdirAll (dirname p)]) ++
         [.writeFile p, .chmod p 0o600],
       (if fs.dirs.contains (dirname p) then fs
        else { fs with dirs := dirname p :: fs.dirs }).setFile p w.writeInitialPerm) := by
  unfold writeStep
  by_cases hd : dirname p ∈ fs.dirs <;> simp [hd, hm, hw, hc]

/-- C7: after every successful run the output file's permission bits are
exactly `0o600`, whatever permission bits the write itself left (those
bits absorb the process's file-creation mask and are arbitrary in the
world); when the final chmod fails instead, the run fails with the
permission error while the already-written file stays on disk with its
write-time permission bits — no removal ever occurs. -/
theorem output_file_permissions_0600 (c : Config) (w : World) (fs : FS) :
    (∀ out tr fs', generateKubeconfig c w fs = (.ok out, tr, fs') →
       fs'.files.lookup c.outputPath = some 0o600 ∧
       Event.chmod c.outputPath 0o600 ∈ tr ∧
       Event.writeFile c.outputPath ∈ tr ∧
       (∀ p, Event.removeFile p ∉ tr)) ∧
    (∀ cc ctx cl sa token tokEv,
       w.loadResult = .ok cc → w.buildResult = .ok () → w.clientResult = .ok () →
       cc.contexts.lookup cc.currentContext = some ctx →
       cc.clusters.lookup ctx.cluster = some cl →
       w.saGetResult = .ok sa →
       getServiceAccountToken w c = (.ok token, tokEv) →
       w.mkdirFails = false → w.writeFails = false → w.chmodFails = true →
       (generateKubeconfig c w fs).1 =
         .error "failed to set kubeconfig file permissions: chmod error" ∧
       (generateKubeconfig c w fs).2.2.files.lookup c.outputPath = some w.writeInitialPerm ∧
       (∀ p, Event.removeFile p ∉ (generateKubeconfig c w fs).2.1)) := by
  constructor
  · intro out tr fs' h
    obtain ⟨cc, ctx, cl, token, tokEv, hload, hctx, hcl, htok, hwf, hcf, hout,
      hchm, hwr, hrm, hca, hlk⟩ := generateKubeconfig_ok_inv c w fs out tr fs' h
    exact ⟨hlk, hchm, hwr, hrm⟩
  · intro cc ctx cl sa token tokEv hload hbuild hclient hctx hcl hsa htok hm hw hc
    have hgen : generateKubeconfig c w fs =
        writeStep (assembleConfig c (if c.clusterName = "" then ctx.cluster else c.clusterName)
            (if c.apiServer = "" then cl.server else c.apiServer)
            (resolveCA w cl).1 (resolveCA w cl).2.1 token)
          c.outputPath w fs (Event.saGet :: tokEv ++ (resolveCA w cl).2.2) := by
      simp only [generateKubeconfig, hload, hbuild, hclient, hctx, hcl, hsa, htok]
    rw [hgen, writeStep_chmod_fail _ _ _ _ _ hm hw hc]
    refine ⟨rfl, FS.lookup_setFile _ _ _, ?_⟩
    intro p
    have hno1 : Event.removeFile p ∉ tokEv := by
      have hx := getServiceAccountToken_no_removeFile w c p
      rw [htok] at hx
      exact hx
    have hno2 : Event.removeFile p ∉ (resolveCA w cl).2.2 := resolveCA_no_removeFile w cl p
    by_cases hd : dirname c.outputPath ∈ fs.dirs <;>
      simp [hd, List.mem_append, hno1, hno2]

/-- Witness for C7: the successful example run leaves `./out` with
permission bits `0o600` even though the write left `0o644`; with the
chmod failing, the run errors and `./out` remains with `0o644`. -/
theorem output_file_permissions_0600_witness :
    (fsOK.files.lookup cfgT.outputPath = some 0o600 ∧
     Event.chmod cfgT.outputPath 0o600 ∈ trOK ∧
     Event.writeFile cfgT.outputPath ∈ trOK ∧
     Event.removeFile "./out" ∉ trOK) ∧
    ((generateKubeconfig cfgT wChmodFail fs0).1 =
       .error "failed to set kubeconfig file permissions: chmod error" ∧
     (generateKubeconfig cfgT wChmodFail fs0).2.2.files.lookup cfgT.outputPath =
       some wChmodFail.writeInitialPerm ∧
     Event.removeFile "./out" ∉ (generateKubeconfig cfgT wChmodFail fs0).2.1) := by
  have h1 := (output_file_permissions_0600 cfgT wOK fs0).1 outOK trOK fsOK (by rfl)
  have h2 := (output_file_permissions_0600 cfgT wChmodFail fs0).2 srcConfig
    { cluster := "prod", authInfo := "admin", nspace := "default" } srcCluster
    { secrets := ["s1"] } (trimSpace "tok-abc\n") [Event.kubectlInvoke]
    rfl rfl rfl rfl rfl rfl rfl rfl rfl rfl
  exact ⟨⟨h1.1, h1.2.1, h1.2.2.1, h1.2.2.2 "./out"⟩, h2.1, h2.2.1, h2.2.2 "./out"⟩

/-- C8: config resolution rejects an empty ServiceAccount name before any
file or API access — the whole run returns the missing-input error with
no events and an unchanged filesystem — and otherwise defaults the
context name to `<sa-name>-context`; the registered flag defaults are
namespace `default`, output path `sa-kubeconfig`, token expiry 8760
hours, and a kubeconfig path derived from the platform home directory. -/
theorem config_resolution_required_and_defaults (home : String) (f : Flags)
    (w : World) (fs : FS) :
    (f.sa = "" → runMain f w fs = (.error "Error: ServiceAccount name is required", [], fs)) ∧
    (defaultFlags home).sa = "" ∧
    (defaultFlags home).nspace = "default" ∧
    (defaultFlags home).output = "sa-kubeconfig" ∧
    (defaultFlags home).expiry = 8760 ∧
    (defaultFlags home).kubeconfig = defaultKubeconfigPath home ∧
    (home ≠ "" → defaultKubeconfigPath home = home ++ "/.kube/config") ∧
    (f.sa ≠ "" → f.contextFlag = "" →
       resolveConfig f = .ok
         { serviceAccountName := f.sa
           nspace := f.nspace
           outputPath := f.output
           contextName := f.sa ++ "-context"
           clusterName := f.clusterFlag
           apiServer := f.apiServerFlag
           kubeconfigPath := f.kubeconfig
           tokenExpiryHours := f.expiry }) := by
  refine ⟨?_, rfl, rfl, rfl, rfl, rfl, ?_, ?_⟩
  · intro h
    simp [runMain, resolveConfig, h]
  · intro h
    simp [defaultKubeconfigPath, h]
  · intro h hctx
    simp [resolveConfig, h, hctx]

/-- Witness for C8: with an empty name the run fails untouched; with the
home directory `/root` the default kubeconfig path is
`/root/.kube/config`; with name `pod-viewer` and no context flag the
context name resolves to `pod-viewer-context`. -/
theorem config_resolution_required_and_defaults_witness :
    runMain (defaultFlags "/root") wOK fs0 =
      (.error "Error: ServiceAccount name is required", [], fs0) ∧
    defaultKubeconfigPath "/root" = "/root" ++ "/.kube/config" ∧
    resolveConfig { defaultFlags "/root" with sa := "pod-viewer" } = .ok
      { serviceAccountName := "pod-viewer"
        nspace := "default"
        outputPath := "sa-kubeconfig"
        contextName := "pod-viewer" ++ "-context"
        clusterName := ""
        apiServer := ""
        kubeconfigPath := defaultKubeconfigPath "/root"
        tokenExpiryHours := 8760 } := by
  have h1 := config_resolution_required_and_defaults "/root" (defaultFlags "/root") wOK fs0
  have h2 := config_resolution_required_and_defaults "/root"
    { defaultFlags "/root" with sa := "pod-viewer" } wOK fs0
  exact ⟨h1.1 rfl, h1.2.2.2.2.2.2.1 (by decide),
    h2.2.2.2.2.2.2.2 (by decide) rfl⟩
